import Mathlib

/-!
# dcos-metrics: Kafka producer loop and plugin options

A shallow embedding of `collector/kafka_producer.go` and of the `MetricsPort`
option of `plugins/option.go`.

Conventions of the embedding.

* Go strings are Lean `String`s. The only byte the code looks for is the comma,
  which is ASCII, so splitting on characters and on bytes agree.
* The package-level flags are one record `Flags`, read by every function.
* Everything the code reaches outside the process (the SRV lookup, the HTTP
  fetch, the JSON decoder of the standard library, the sarama client) is a field
  of `World`. The network oracles are indexed by the number of the connection
  attempt, so that they may answer differently each time round the loop.
* A Go function that may return an error, panic, or end the process through
  `log.Fatal` returns an `Outcome`.
* `RunKafkaProducer` is a step function on `State`; the channels are lists:
  `messages` is what is queued on the inbound channel, `stats` is what has been
  sent on the telemetry channel (oldest first), `submitted` is what has been
  sent on `producer.Input()`. Receivers of `stats` and of the producer input are
  taken to be always ready. Log lines are not recorded.
-/

namespace DcosMetrics

/-! ## Standard library pieces -/

namespace strings

/-- Go `strings.Split(s, sep)` on the characters of `s`, for a separator of one
character: the substrings between the separators, in order. A string without the
separator gives the one-element list holding it. -/
def splitChars (sep : Char) : List Char → List (List Char)
  | [] => [[]]
  | c :: cs =>
    if c = sep then [] :: splitChars sep cs
    else
      match splitChars sep cs with
      | [] => [[c]]
      | h :: t => (c :: h) :: t

/-- Go `strings.Split(s, sep)` for a separator of one character. -/
def Split (s : String) (sep : Char) : List String :=
  (splitChars sep s.data).map String.mk

end strings

/-- Go `int64` wrap-around: the representative of `x` modulo `2^64` in
`[-2^63, 2^63)`. -/
def wrapInt64 (x : Int) : Int :=
  (x + 2 ^ 63) % 2 ^ 64 - 2 ^ 63

namespace time

/-- Go `time.Millisecond`, a `time.Duration` (an `int64` count of nanoseconds). -/
def Millisecond : Int := 1000000

/-- Go `time.Duration(n)` for an `int` n: conversion to `int64`. -/
def Duration (n : Int) : Int := wrapInt64 n

/-- Go multiplication of two `time.Duration`s: `int64` multiplication. -/
def mul (a b : Int) : Int := wrapInt64 (a * b)

end time

/-- What a call can end in: a value, a returned `error`, a panic, or the end of
the process through `log.Fatal`. -/
inductive Outcome (α : Type) where
  | ok (value : α)
  | error (err : String)
  | panic (msg : String)
  | fatal (msg : String)
  deriving Repr, DecidableEq

/-- What `json.Unmarshal` stores in an `interface{}`. A number is a `float64` in
Go; it is kept here as its literal. -/
inductive JSONValue where
  | null
  | bool (b : Bool)
  | number (literal : String)
  | string (s : String)
  | array (elems : List JSONValue)
  | object (fields : List (String × JSONValue))

/-- Go `map[string]interface{}`: an association list; indexing a missing key
gives `nil`, here `none`. The nil map is the empty list. -/
abbrev JSONMap := List (String × JSONValue)

/-! ## Flags and data of `kafka_producer.go` -/

/-- The package-level flags of `kafka_producer.go`. `flushPeriodFlag` is a Go
`int`. -/
structure Flags where
  brokersFlag : String
  frameworkFlag : String
  flushPeriodFlag : Int
  snappyCompressionFlag : Bool
  requireAllAcksFlag : Bool
  verboseFlag : Bool
  deriving Repr, DecidableEq

/-- The default values given in the flag declarations. -/
def Flags.defaults : Flags :=
  { brokersFlag := "", frameworkFlag := "kafka", flushPeriodFlag := 5000,
    snappyCompressionFlag := true, requireAllAcksFlag := false, verboseFlag := false }

/-- The `KafkaMessage` struct. -/
structure KafkaMessage where
  Topic : String
  Data : List UInt8
  deriving Repr, DecidableEq

/-- Modelled from the spec: the kinds of `StatsEvent`, declared in a file of the
package that is not part of the sources at hand. The spec lists
`ConnectionFailed`, `DiscoveryFailed`, `SessionOpened`, `SessionClosed` and
`MessageSent`; the names are the constants `kafka_producer.go` uses. -/
inductive StatsEventType where
  | KafkaConnectionFailed
  | KafkaLookupFailed
  | KafkaSessionOpened
  | KafkaSessionClosed
  | KafkaMessageSent
  deriving Repr, DecidableEq

/-- Modelled from the spec: `StatsEvent`, `{ kind: enumerated lifecycle tag,
detail: string }`, built positionally in `kafka_producer.go`. -/
structure StatsEvent where
  kind : StatsEventType
  detail : String
  deriving Repr, DecidableEq

namespace sarama

/-- The `sarama.RequiredAcks` constants. -/
inductive RequiredAcks where
  | NoResponse
  | WaitForLocal
  | WaitForAll
  deriving Repr, DecidableEq

/-- The `sarama.CompressionCodec` constants. -/
inductive CompressionCodec where
  | CompressionNone
  | CompressionGZIP
  | CompressionSnappy
  deriving Repr, DecidableEq

/-- The fields of `sarama.Config` that `newAsyncProducer` writes.
`FlushFrequency` is `Producer.Flush.Frequency`, a `time.Duration` in
nanoseconds. -/
structure Config where
  RequiredAcks : RequiredAcks
  Compression : CompressionCodec
  FlushFrequency : Int
  deriving Repr, DecidableEq

/-- The values `sarama.NewConfig()` gives these fields. -/
def NewConfig : Config :=
  { RequiredAcks := .WaitForLocal, Compression := .CompressionNone, FlushFrequency := 0 }

/-- A `sarama.ProducerMessage` as the loop builds it. -/
structure ProducerMessage where
  Topic : String
  Value : List UInt8
  deriving Repr, DecidableEq

/-- A `sarama.AsyncProducer` handle: the attempt that created it and the
arguments it was created with. -/
structure AsyncProducer where
  id : Nat
  brokers : List String
  config : Config
  deriving Repr, DecidableEq

end sarama

/-- A record of `net.SRV`. -/
structure SRV where
  Target : String
  Port : Nat
  deriving Repr, DecidableEq

/-- Everything outside the process. The first argument of the network oracles is
the number of the connection attempt. -/
structure World where
  /-- Go `net.LookupSRV(service, proto, name)`. -/
  LookupSRV : Nat → String → String → String → Except String (List SRV)
  /-- Go `HttpGet(url)`, a helper of the package that performs one GET. -/
  HttpGet : Nat → String → Except String String
  /-- Go `json.Unmarshal(body, &jsonData)` for `jsonData` a `map[string]interface{}`. -/
  Unmarshal : String → Except String JSONMap
  /-- Go `sarama.NewAsyncProducer(brokers, config)`: `none` when the producer is
  created, the error otherwise. -/
  NewAsyncProducer : Nat → List String → sarama.Config → Option String
  /-- Whether the input channel of the producer is closed once it has taken the
  given number of messages. A send on a closed channel panics. -/
  inputClosed : sarama.AsyncProducer → Nat → Bool

/-! ## Broker discovery -/

/-- The name Go prints for the dynamic type of a decoded value; `none` is the
nil interface, which is also what the JSON `null` decodes to. -/
def dynamicType : Option JSONValue → String
  | none => "nil"
  | some .null => "nil"
  | some (.bool _) => "bool"
  | some (.number _) => "float64"
  | some (.string _) => "string"
  | some (.array _) => "[]interface \x7b\x7d"
  | some (.object _) => "map[string]interface \x7b\x7d"

/-- The message of the panic of a failed type assertion `v.(T)` on an
`interface{}`. -/
def conversionPanic (v : Option JSONValue) (wanted : String) : String :=
  "interface conversion: interface \x7b\x7d is " ++ dynamicType v ++ ", not " ++ wanted

/-- The loop of `extractBrokers`: `brokers[i] = jsonDnsEntry.(string)` for each
entry. The type assertion has one result, so it panics on anything that is not
a string. -/
def extractBrokers.fill : List JSONValue → Nat → List String → Outcome (List String)
  | [], _, brokers => .ok brokers
  | jsonDnsEntry :: rest, i, brokers =>
    match jsonDnsEntry with
    | .string s => extractBrokers.fill rest (i + 1) (brokers.set i s)
    | other => .panic (conversionPanic (some other) "string")

/-- Go `extractBrokers(body)`. The type assertion on `jsonData["dns"]` has one
result, so it panics on a missing entry and on anything that is not an array. -/
def extractBrokers (w : World) (body : String) : Outcome (List String) :=
  match w.Unmarshal body with
  | .error err => .error err
  | .ok jsonData =>
    -- expect "dns" entry containing a list of strings
    match jsonData.lookup "dns" with
    | some (.array jsonBrokers) =>
      extractBrokers.fill jsonBrokers 0 (List.replicate jsonBrokers.length "")
    | other => .panic (conversionPanic other "[]interface \x7b\x7d")

/-- Go `connectionEndpoint(framework)`. -/
def connectionEndpoint (w : World) (attempt : Nat) (framework : String) : Except String String :=
  match w.LookupSRV attempt framework "tcp" "marathon.mesos" with
  | .error err => .error err
  | .ok addrs =>
    match addrs with
    | [] => .error ("Framework '" ++ framework ++ "' not found")
    | addr :: _ => .ok ("http://" ++ framework ++ ".mesos:" ++ toString addr.Port ++ "/v1/connection")

/-- Go `lookupBrokers(framework)`. -/
def lookupBrokers (w : World) (attempt : Nat) (framework : String) : Outcome (List String) :=
  match connectionEndpoint w attempt framework with
  | .error err => .error err
  | .ok schedulerEndpoint =>
    match w.HttpGet attempt schedulerEndpoint with
    | .error err => .error err
    | .ok body => extractBrokers w body

/-! ## Producer creation -/

/-- The `sarama.Config` that `newAsyncProducer` builds before it connects. -/
def newAsyncProducer.config (f : Flags) : sarama.Config :=
  let config := sarama.NewConfig
  let config :=
    if f.requireAllAcksFlag then { config with RequiredAcks := .WaitForAll }
    else { config with RequiredAcks := .WaitForLocal }
  let config :=
    if f.snappyCompressionFlag then { config with Compression := .CompressionSnappy }
    else { config with Compression := .CompressionNone }
  { config with FlushFrequency := time.mul (time.Duration f.flushPeriodFlag) time.Millisecond }

/-- Go `newAsyncProducer(brokerList)`. The goroutine that logs the producer errors
has no effect on the state and is left out. -/
def newAsyncProducer (w : World) (f : Flags) (attempt : Nat) (brokerList : List String) :
    Outcome sarama.AsyncProducer :=
  let config := newAsyncProducer.config f
  match w.NewAsyncProducer attempt brokerList config with
  | some err => .error err
  | none => .ok { id := attempt, brokers := brokerList, config := config }

/-- The result of a call together with what it did on the way: the events it
sent on `stats` and the frameworks it called `lookupBrokers` for. -/
structure Call (α : Type) where
  outcome : Outcome α
  stats : List StatsEvent
  lookups : List String
  deriving Repr, DecidableEq

/-- The first part of `kafkaProducer`, up to the log line with the brokers: the
choice of the broker list. -/
def kafkaProducer.brokers (w : World) (f : Flags) (attempt : Nat) : Call (List String) :=
  let brokers : List String := []
  if f.frameworkFlag ≠ "" then
    match lookupBrokers w attempt f.frameworkFlag with
    | .ok foundBrokers =>
      { outcome := .ok (brokers ++ foundBrokers), stats := [], lookups := [f.frameworkFlag] }
    | .error err =>
      { outcome := .error ("Broker lookup against framework " ++ f.frameworkFlag ++
          " failed: " ++ err),
        stats := [⟨.KafkaLookupFailed, f.frameworkFlag⟩], lookups := [f.frameworkFlag] }
    | .panic msg => { outcome := .panic msg, stats := [], lookups := [f.frameworkFlag] }
    | .fatal msg => { outcome := .fatal msg, stats := [], lookups := [f.frameworkFlag] }
  else if f.brokersFlag ≠ "" then
    let brokers := strings.Split f.brokersFlag ','
    if brokers.length = 0 then
      { outcome := .fatal "-brokers must be non-empty.", stats := [], lookups := [] }
    else
      { outcome := .ok brokers, stats := [], lookups := [] }
  else
    { outcome := .fatal "Either -framework or -brokers must be specified, or -kafka must be false.",
      stats := [], lookups := [] }

/-- Go `fmt.Sprintf("%+v", brokers)` for a slice of strings. -/
def fmtSlice (brokers : List String) : String :=
  "[" ++ " ".intercalate brokers ++ "]"

/-- Go `kafkaProducer(stats)`. -/
def kafkaProducer (w : World) (f : Flags) (attempt : Nat) : Call sarama.AsyncProducer :=
  let sel := kafkaProducer.brokers w f attempt
  match sel.outcome with
  | .ok brokers =>
    match newAsyncProducer w f attempt brokers with
    | .ok producer => { sel with outcome := .ok producer }
    | .error err =>
      { sel with outcome := .error ("Producer creation against brokers " ++ fmtSlice brokers ++
          " failed: " ++ err) }
    | .panic msg => { sel with outcome := .panic msg }
    | .fatal msg => { sel with outcome := .fatal msg }
  | .error err => { sel with outcome := .error err }
  | .panic msg => { sel with outcome := .panic msg }
  | .fatal msg => { sel with outcome := .fatal msg }

/-! ## The loop of `RunKafkaProducer` -/

/-- Where `RunKafkaProducer` stands. -/
inductive Phase where
  /-- At the top of the outer loop, about to call `kafkaProducer`. -/
  | connecting
  /-- In the inner loop, with the producer it sends to. -/
  | sending (producer : sarama.AsyncProducer)
  /-- The goroutine has panicked and its deferred calls have run. -/
  | panicked (msg : String)
  /-- The process has ended in `log.Fatal`; deferred calls do not run. -/
  | exited (msg : String)
  deriving Repr, DecidableEq

/-- The state of `RunKafkaProducer` and of the channels around it. -/
structure State where
  phase : Phase
  /-- Number of calls of `kafkaProducer` so far. -/
  attempt : Nat
  /-- What is queued on the inbound channel, oldest first. -/
  messages : List KafkaMessage
  /-- What has been sent on the telemetry channel, oldest first. -/
  stats : List StatsEvent
  /-- What has been sent on `producer.Input()`, oldest first. -/
  submitted : List sarama.ProducerMessage
  /-- The deferred calls, last registered first, each by its producer. -/
  deferred : List sarama.AsyncProducer
  /-- The producers on which `Close()` has been called, oldest first. -/
  closed : List sarama.AsyncProducer
  /-- The frameworks `lookupBrokers` has been called for, oldest first. -/
  lookups : List String
  deriving Repr, DecidableEq

/-- The state at the call of `RunKafkaProducer`, with `queue` on the inbound
channel. -/
def State.init (queue : List KafkaMessage) : State :=
  { phase := .connecting, attempt := 0, messages := queue, stats := [], submitted := [],
    deferred := [], closed := [], lookups := [] }

/-- The deferred calls run when the goroutine panics, last registered first:
each sends `KafkaSessionClosed` and closes its producer. -/
def runDeferred (s : State) : State :=
  { s with
    stats := s.stats ++ s.deferred.map (fun _ => ⟨.KafkaSessionClosed, ""⟩),
    closed := s.closed ++ s.deferred,
    deferred := [] }

/-- One turn of `RunKafkaProducer`: one pass of the outer loop up to the inner
loop, or one pass of the inner loop. A receive on the empty inbound channel
blocks: the state stays as it is. -/
def step (w : World) (f : Flags) (s : State) : State :=
  match s.phase with
  | .connecting =>
    let r := kafkaProducer w f s.attempt
    let s1 := { s with attempt := s.attempt + 1, stats := s.stats ++ r.stats,
                       lookups := s.lookups ++ r.lookups }
    match r.outcome with
    | .error _ => { s1 with stats := s1.stats ++ [⟨.KafkaConnectionFailed, ""⟩] }
    | .ok producer =>
      { s1 with stats := s1.stats ++ [⟨.KafkaSessionOpened, ""⟩],
                deferred := producer :: s1.deferred,
                phase := .sending producer }
    | .panic msg => runDeferred { s1 with phase := .panicked msg }
    | .fatal msg => { s1 with phase := .exited msg }
  | .sending producer =>
    match s.messages with
    | [] => s
    | message :: rest =>
      if w.inputClosed producer s.submitted.length then
        runDeferred { s with messages := rest, phase := .panicked "send on closed channel" }
      else
        { s with messages := rest,
                 submitted := s.submitted ++ [⟨message.Topic, message.Data⟩],
                 stats := s.stats ++ [⟨.KafkaMessageSent, message.Topic⟩] }
  | .panicked _ => s
  | .exited _ => s

/-- The state after `n` turns of `RunKafkaProducer`. -/
def run (w : World) (f : Flags) : Nat → State → State
  | 0, s => s
  | n + 1, s => run w f n (step w f s)

/-- Go `RunKafkaProducer(messages, stats)` observed after `n` turns. -/
def RunKafkaProducer (w : World) (f : Flags) (queue : List KafkaMessage) (n : Nat) : State :=
  run w f n (State.init queue)

/-! ## `plugins/option.go` -/

namespace plugin

/-- The fields of `Plugin` that the options at hand write. -/
structure Plugin where
  Name : String
  PollingInterval : Int
  MetricsProto : String
  MetricsHost : String
  MetricsPort : String
  AuthToken : String
  deriving Repr, DecidableEq

/-- The text of `errBadPort`. -/
def errBadPort : String := "Port must be less than 65535"

/-- Go `strconv.Itoa`. -/
def Itoa (i : Int) : String := toString i

/-- Go `MetricsPort(port)` applied to a plugin: the error it returns, if any, and
the plugin afterwards. -/
def MetricsPort (port : Int) (p : Plugin) : Option String × Plugin :=
  if port ≤ 65535 then
    (none, { p with MetricsPort := Itoa port })
  else
    (some errBadPort, p)

end plugin

/-! ## Shapes of the event trace -/

/-- The discovery document of a framework with two brokers. -/
def twoBrokersBody : String := "\x7b\"dns\": [\"b1:9092\",\"b2:9092\"]\x7d"

/-- A stand-in for `json.Unmarshal` that knows a few documents: the value it
gives for each is the one the standard decoder gives; any other body is
rejected. -/
def sampleUnmarshal (body : String) : Except String JSONMap :=
  if body = twoBrokersBody then
    .ok [("dns", .array [.string "b1:9092", .string "b2:9092"])]
  else if body = "\x7b\x7d" then
    .ok []
  else if body = "null" then
    .ok []
  else if body = "\x7b\"dns\": \"b1:9092\"\x7d" then
    .ok [("dns", .string "b1:9092")]
  else if body = "\x7b\"dns\": [\"b1:9092\", 9092]\x7d" then
    .ok [("dns", .array [.string "b1:9092", .number "9092"])]
  else
    .error "invalid character"

/-- A world in which discovery answers with two brokers, every producer is
created and its input stays open. -/
def World.healthy : World :=
  { LookupSRV := fun _ _ _ _ => .ok [⟨"kafka.mesos.", 9000⟩],
    HttpGet := fun _ _ => .ok twoBrokersBody,
    Unmarshal := sampleUnmarshal,
    NewAsyncProducer := fun _ _ _ => none,
    inputClosed := fun _ _ => false }

/-- A world without network: the SRV lookup and the connection fail. -/
def World.offline : World :=
  { World.healthy with
    LookupSRV := fun _ _ _ _ => .error "no such host",
    HttpGet := fun _ _ => .error "connection refused",
    NewAsyncProducer := fun _ _ _ => some "kafka: client has run out of available brokers" }

/-- A world in which the scheduler answers with an empty JSON object. -/
def World.emptyAnswer : World :=
  { World.healthy with HttpGet := fun _ _ => .ok "\x7b\x7d" }

/-- A world in which the connection fails on the first `n` attempts. -/
def World.failing (n : Nat) : World :=
  { World.healthy with
    NewAsyncProducer := fun attempt _ _ => if attempt < n then some "connection refused" else none }

/-! ## Facts about `strings.Split` -/

theorem strings.splitChars_ne_nil (sep : Char) (cs : List Char) :
    strings.splitChars sep cs ≠ [] := by
  induction cs with
  | nil => simp [strings.splitChars]
  | cons c cs ih =>
    unfold strings.splitChars
    split
    · simp
    · split <;> simp

theorem strings.intercalate_splitChars (sep : Char) (cs : List Char) :
    List.intercalate [sep] (strings.splitChars sep cs) = cs := by
  induction cs with
  | nil => simp [strings.splitChars, List.intercalate]
  | cons c cs ih =>
    unfold strings.splitChars
    split
    · rename_i h
      subst h
      cases hs : strings.splitChars c cs with
      | nil => exact absurd hs (strings.splitChars_ne_nil c cs)
      | cons a t =>
        rw [hs] at ih
        simp [List.intercalate, List.intersperse] at ih ⊢
        exact ih
    · cases hs : strings.splitChars sep cs with
      | nil => exact absurd hs (strings.splitChars_ne_nil sep cs)
      | cons a t =>
        rw [hs] at ih
        simp only []
        cases t with
        | nil => simp [List.intercalate, List.intersperse] at ih ⊢; exact ih
        | cons b t => simp [List.intercalate, List.intersperse] at ih ⊢; exact ih

theorem strings.sep_not_mem_splitChars (sep : Char) (cs : List Char) :
    ∀ piece ∈ strings.splitChars sep cs, sep ∉ piece := by
  induction cs with
  | nil => simp [strings.splitChars]
  | cons c cs ih =>
    unfold strings.splitChars
    split
    · intro piece hp
      rcases List.mem_cons.mp hp with h | h
      · simp [h]
      · exact ih piece h
    · rename_i hc
      cases hs : strings.splitChars sep cs with
      | nil => exact absurd hs (strings.splitChars_ne_nil sep cs)
      | cons a t =>
        rw [hs] at ih
        intro piece hp
        rcases List.mem_cons.mp hp with h | h
        · subst h
          intro hmem
          rcases List.mem_cons.mp hmem with h1 | h1
          · exact hc h1.symm
          · exact ih a (List.mem_cons_self _ _) h1
        · exact ih piece (List.mem_cons_of_mem _ h)

theorem strings.Split_data (s : String) (sep : Char) :
    (strings.Split s sep).map String.data = strings.splitChars sep s.data := by
  unfold strings.Split
  rw [List.map_map]
  have : (String.data ∘ String.mk) = id := by
    funext l
    rfl
  rw [this, List.map_id]

theorem strings.Split_length_ne_zero (s : String) (sep : Char) :
    (strings.Split s sep).length ≠ 0 := by
  unfold strings.Split
  rw [List.length_map]
  intro h
  exact strings.splitChars_ne_nil sep s.data (List.length_eq_zero.mp h)

theorem strings.Split_ne_nil (s : String) (sep : Char) : strings.Split s sep ≠ [] := by
  intro h
  exact strings.Split_length_ne_zero s sep (by rw [h]; rfl)

/-! ## The choice of the brokers -/

theorem kafkaProducer.brokers_explicit (w : World) (f : Flags) (attempt : Nat)
    (hfw : f.frameworkFlag = "") (hbr : f.brokersFlag ≠ "") :
    kafkaProducer.brokers w f attempt =
      { outcome := .ok (strings.Split f.brokersFlag ','), stats := [], lookups := [] } := by
  unfold kafkaProducer.brokers
  simp [hfw, hbr, strings.Split_ne_nil]

theorem kafkaProducer.brokers_unset (w : World) (f : Flags) (attempt : Nat)
    (hfw : f.frameworkFlag = "") (hbr : f.brokersFlag = "") :
    kafkaProducer.brokers w f attempt =
      { outcome := .fatal "Either -framework or -brokers must be specified, or -kafka must be false.",
        stats := [], lookups := [] } := by
  unfold kafkaProducer.brokers
  simp [hfw, hbr]

theorem kafkaProducer.brokers_found (w : World) (f : Flags) (attempt : Nat)
    (hfw : f.frameworkFlag ≠ "") (found : List String)
    (hfound : lookupBrokers w attempt f.frameworkFlag = .ok found) :
    kafkaProducer.brokers w f attempt =
      { outcome := .ok found, stats := [], lookups := [f.frameworkFlag] } := by
  unfold kafkaProducer.brokers
  simp [hfw, hfound]

/-- When the choice of the brokers succeeds it has sent nothing on `stats`. -/
theorem kafkaProducer.brokers_ok_stats (w : World) (f : Flags) (attempt : Nat)
    (bs : List String) (h : (kafkaProducer.brokers w f attempt).outcome = .ok bs) :
    (kafkaProducer.brokers w f attempt).stats = [] := by
  unfold kafkaProducer.brokers at h ⊢
  by_cases hfw : f.frameworkFlag = ""
  · by_cases hbr : f.brokersFlag = ""
    · simp [hfw, hbr]
    · simp [hfw, hbr, strings.Split_ne_nil]
  · simp only [ne_eq, hfw, not_false_eq_true, if_true] at h ⊢
    cases hl : lookupBrokers w attempt f.frameworkFlag with
    | ok found => simp
    | error err => rw [hl] at h; simp at h
    | panic msg => simp
    | fatal msg => simp

/-- The producer `kafkaProducer` returns was created with the chosen brokers. -/
theorem kafkaProducer_ok_brokers (w : World) (f : Flags) (attempt : Nat)
    (bs : List String) (producer : sarama.AsyncProducer)
    (hsel : (kafkaProducer.brokers w f attempt).outcome = .ok bs)
    (h : (kafkaProducer w f attempt).outcome = .ok producer) :
    producer.brokers = bs := by
  unfold kafkaProducer at h
  simp only [hsel] at h
  unfold newAsyncProducer at h
  cases hn : w.NewAsyncProducer attempt bs (newAsyncProducer.config f) with
  | some err => simp [hn] at h
  | none =>
    simp [hn] at h
    rw [← h]

/-- C1, as stated, fails: with the default framework flag `kafka` and the
broker-list flag `x1:1,x2:2`, the choice of the brokers is not the split of the
flag but what discovery gives: the discovered list when the scheduler answers,
an error when the lookup fails. -/
theorem C1_counterexample_framework_set :
    ({ Flags.defaults with brokersFlag := "x1:1,x2:2" } : Flags).brokersFlag ≠ ""
      ∧ strings.Split "x1:1,x2:2" ',' = ["x1:1", "x2:2"]
      ∧ (kafkaProducer.brokers World.healthy
          { Flags.defaults with brokersFlag := "x1:1,x2:2" } 0).outcome
          = .ok ["b1:9092", "b2:9092"]
      ∧ (kafkaProducer.brokers World.healthy
          { Flags.defaults with brokersFlag := "x1:1,x2:2" } 0).outcome
          ≠ .ok (strings.Split "x1:1,x2:2" ',')
      ∧ (kafkaProducer.brokers World.offline
          { Flags.defaults with brokersFlag := "x1:1,x2:2" } 0).outcome
          = .error "Broker lookup against framework kafka failed: no such host" := by
  refine ⟨?_, ?_, ?_, ?_, ?_⟩ <;> decide

/-- C1, amended: with the framework flag empty and a non-empty broker-list flag, the
choice of the brokers in `kafkaProducer` succeeds, without discovery and without
an event, with exactly `strings.Split(brokersFlag, ",")`: the pieces joined by
commas give the flag back, no piece holds a comma, and the producer is created
with that list. -/
theorem C1_explicit_list_is_split (w : World) (f : Flags) (attempt : Nat)
    (hfw : f.frameworkFlag = "") (hbr : f.brokersFlag ≠ "") :
    kafkaProducer.brokers w f attempt =
        { outcome := .ok (strings.Split f.brokersFlag ','), stats := [], lookups := [] }
      ∧ List.intercalate [','] ((strings.Split f.brokersFlag ',').map String.data)
          = f.brokersFlag.data
      ∧ (∀ b ∈ strings.Split f.brokersFlag ',', ',' ∉ b.data)
      ∧ (∀ producer, (kafkaProducer w f attempt).outcome = .ok producer →
          producer.brokers = strings.Split f.brokersFlag ',') := by
  have hsel := kafkaProducer.brokers_explicit w f attempt hfw hbr
  refine ⟨hsel, ?_, ?_, ?_⟩
  · rw [strings.Split_data]
    exact strings.intercalate_splitChars ',' f.brokersFlag.data
  · intro b hb
    have hmem : b.data ∈ (strings.Split f.brokersFlag ',').map String.data :=
      List.mem_map_of_mem String.data hb
    rw [strings.Split_data] at hmem
    exact strings.sep_not_mem_splitChars ',' f.brokersFlag.data b.data hmem
  · intro producer h
    exact kafkaProducer_ok_brokers w f attempt _ producer (by rw [hsel]) h

/-- C1 at the flags `-kafka-framework= -kafka-brokers=b1:9092,b2:9092,b3:9092`. -/
theorem C1_explicit_list_is_split_witness :
    ({ Flags.defaults with frameworkFlag := "", brokersFlag := "b1:9092,b2:9092,b3:9092" } :
        Flags).frameworkFlag = ""
      ∧ strings.Split "b1:9092,b2:9092,b3:9092" ',' = ["b1:9092", "b2:9092", "b3:9092"]
      ∧ kafkaProducer.brokers World.offline
          { Flags.defaults with frameworkFlag := "", brokersFlag := "b1:9092,b2:9092,b3:9092" } 0
        = { outcome := .ok (strings.Split "b1:9092,b2:9092,b3:9092" ','),
            stats := [], lookups := [] } :=
  ⟨rfl, by decide,
    (C1_explicit_list_is_split World.offline
      { Flags.defaults with frameworkFlag := "", brokersFlag := "b1:9092,b2:9092,b3:9092" } 0
      rfl (by decide)).1⟩

/-- C4, as stated, fails: with the default framework flag `kafka` and an empty
broker-list flag, the choice of the brokers calls `lookupBrokers` and ends in an
ordinary error, not in a fatal configuration error. -/
theorem C4_counterexample_discovery_attempted :
    Flags.defaults.brokersFlag = ""
      ∧ (kafkaProducer.brokers World.offline Flags.defaults 0).lookups = ["kafka"]
      ∧ (kafkaProducer.brokers World.offline Flags.defaults 0).outcome
          = .error "Broker lookup against framework kafka failed: no such host"
      ∧ (kafkaProducer.brokers World.healthy Flags.defaults 0).outcome
          = .ok ["b1:9092", "b2:9092"] := by
  refine ⟨rfl, ?_, ?_, ?_⟩ <;> decide

/-- C4, amended: with the framework flag and the broker-list flag both empty,
the choice of the brokers ends the process in `log.Fatal` without a call of
`lookupBrokers` and without an event, whatever the other flags and the world;
so does `kafkaProducer`, and `RunKafkaProducer` has exited after its first
turn. -/
theorem C4_no_brokers_no_framework_is_fatal (w : World) (f : Flags) (attempt : Nat)
    (queue : List KafkaMessage)
    (hfw : f.frameworkFlag = "") (hbr : f.brokersFlag = "") :
    kafkaProducer.brokers w f attempt =
        { outcome := .fatal "Either -framework or -brokers must be specified, or -kafka must be false.",
          stats := [], lookups := [] }
      ∧ kafkaProducer w f attempt =
        { outcome := .fatal "Either -framework or -brokers must be specified, or -kafka must be false.",
          stats := [], lookups := [] }
      ∧ RunKafkaProducer w f queue 1 =
        { State.init queue with
          phase := .exited "Either -framework or -brokers must be specified, or -kafka must be false.",
          attempt := 1 } := by
  have hsel := kafkaProducer.brokers_unset w f 0 hfw hbr
  have hkp : ∀ a, kafkaProducer w f a =
      { outcome := .fatal "Either -framework or -brokers must be specified, or -kafka must be false.",
        stats := [], lookups := [] } := by
    intro a
    unfold kafkaProducer
    rw [kafkaProducer.brokers_unset w f a hfw hbr]
  refine ⟨kafkaProducer.brokers_unset w f attempt hfw hbr, hkp attempt, ?_⟩
  simp [RunKafkaProducer, run, step, State.init, hkp 0]

/-- C4, amended, at the flags `-kafka-framework= -kafka-brokers=`. -/
theorem C4_no_brokers_no_framework_is_fatal_witness :
    (kafkaProducer.brokers World.healthy
        { Flags.defaults with frameworkFlag := "", brokersFlag := "" } 0).lookups = []
      ∧ (RunKafkaProducer World.healthy
        { Flags.defaults with frameworkFlag := "", brokersFlag := "" } [] 1).lookups = [] := by
  have h := C4_no_brokers_no_framework_is_fatal World.healthy
    { Flags.defaults with frameworkFlag := "", brokersFlag := "" } 0 [] rfl rfl
  refine ⟨?_, ?_⟩
  · rw [h.1]
  · rw [h.2.2]
    rfl

/-- C8: with a non-empty framework flag the broker-list flag plays no part in
the choice of the brokers nor in `kafkaProducer`; when `lookupBrokers` returns a
list, that list is the choice, and the producer is created with it. -/
theorem C8_framework_overrides_brokers (w : World) (f : Flags) (attempt : Nat)
    (hfw : f.frameworkFlag ≠ "") :
    (∀ b, kafkaProducer.brokers w { f with brokersFlag := b } attempt
        = kafkaProducer.brokers w f attempt)
      ∧ (∀ b, (kafkaProducer w { f with brokersFlag := b } attempt)
        = kafkaProducer w f attempt)
      ∧ (kafkaProducer.brokers w f attempt).lookups = [f.frameworkFlag]
      ∧ (∀ found, lookupBrokers w attempt f.frameworkFlag = .ok found →
          (kafkaProducer.brokers w f attempt).outcome = .ok found
          ∧ ∀ producer, (kafkaProducer w f attempt).outcome = .ok producer →
              producer.brokers = found) := by
  have h1 : ∀ b, kafkaProducer.brokers w { f with brokersFlag := b } attempt
      = kafkaProducer.brokers w f attempt := by
    intro b
    unfold kafkaProducer.brokers
    simp [hfw]
  refine ⟨h1, ?_, ?_, ?_⟩
  · intro b
    unfold kafkaProducer
    rw [h1 b]
    rfl
  · unfold kafkaProducer.brokers
    simp only [ne_eq, hfw, not_false_eq_true, if_true]
    cases lookupBrokers w attempt f.frameworkFlag <;> rfl
  · intro found hfound
    have hsel := kafkaProducer.brokers_found w f attempt hfw found hfound
    refine ⟨by rw [hsel], ?_⟩
    intro producer h
    exact kafkaProducer_ok_brokers w f attempt found producer (by rw [hsel]) h

/-- C8 at the flags `-kafka-framework=kafka -kafka-brokers=other:1`. -/
theorem C8_framework_overrides_brokers_witness :
    (kafkaProducer.brokers World.healthy
        { Flags.defaults with brokersFlag := "other:1" } 0).outcome
      = .ok ["b1:9092", "b2:9092"] :=
  ((C8_framework_overrides_brokers World.healthy { Flags.defaults with brokersFlag := "other:1" } 0
      (by decide)).2.2.2 ["b1:9092", "b2:9092"] (by decide)).1

/-! ## The discovery document -/

theorem extractBrokers.fill_strings (bs pre : List String) :
    extractBrokers.fill (bs.map JSONValue.string) pre.length
        (pre ++ List.replicate bs.length "") = .ok (pre ++ bs) := by
  induction bs generalizing pre with
  | nil => simp [extractBrokers.fill]
  | cons b bs ih =>
    have hset : (pre ++ List.replicate (b :: bs).length "").set pre.length b
        = (pre ++ [b]) ++ List.replicate bs.length "" := by
      simp [List.set_append, List.replicate_succ]
    have hlen : pre.length + 1 = (pre ++ [b]).length := by simp
    simp only [List.map_cons, extractBrokers.fill]
    rw [hset, hlen, ih (pre ++ [b])]
    simp

/-- Without a `dns` entry that is an array, `extractBrokers` panics. -/
theorem extractBrokers_panics_without_array (w : World) (body : String) (jsonData : JSONMap)
    (hdec : w.Unmarshal body = .ok jsonData)
    (hdns : ∀ elems, jsonData.lookup "dns" ≠ some (.array elems)) :
    extractBrokers w body
      = .panic (conversionPanic (jsonData.lookup "dns") "[]interface \x7b\x7d") := by
  unfold extractBrokers
  rw [hdec]
  cases hl : List.lookup "dns" jsonData with
  | none => simp only [hl]
  | some v =>
    cases v with
    | array elems => exact absurd hl (hdns elems)
    | _ => simp only [hl]

/-- C2: when the body decodes to an object whose `dns` entry is the array of the
strings `bs`, `extractBrokers` returns `bs`, hence a list of the same length in
the same order. -/
theorem C2_extractBrokers_returns_dns (w : World) (body : String) (jsonData : JSONMap)
    (bs : List String)
    (hdec : w.Unmarshal body = .ok jsonData)
    (hdns : jsonData.lookup "dns" = some (.array (bs.map JSONValue.string))) :
    extractBrokers w body = .ok bs := by
  unfold extractBrokers
  rw [hdec]
  simp only [hdns]
  have h := extractBrokers.fill_strings bs []
  simpa using h

/-- C2 at the document with the two brokers `b1:9092` and `b2:9092`. -/
theorem C2_extractBrokers_returns_dns_witness :
    extractBrokers World.healthy twoBrokersBody = .ok ["b1:9092", "b2:9092"] :=
  C2_extractBrokers_returns_dns World.healthy twoBrokersBody
    [("dns", .array [.string "b1:9092", .string "b2:9092"])] ["b1:9092", "b2:9092"]
    (by rfl) (by rfl)

/-- C3, the code at the failing inputs: on the empty object, on `null`, on a
`dns` entry that is a string and on a `dns` array holding a number, the decoder
accepts the body and `extractBrokers` panics; so does `lookupBrokers`, and
`RunKafkaProducer` ends in the panic on its first turn, without an event. -/
theorem C3_extractBrokers_panics :
    extractBrokers World.healthy "\x7b\x7d"
        = .panic "interface conversion: interface \x7b\x7d is nil, not []interface \x7b\x7d"
      ∧ extractBrokers World.healthy "null"
        = .panic "interface conversion: interface \x7b\x7d is nil, not []interface \x7b\x7d"
      ∧ extractBrokers World.healthy "\x7b\"dns\": \"b1:9092\"\x7d"
        = .panic "interface conversion: interface \x7b\x7d is string, not []interface \x7b\x7d"
      ∧ extractBrokers World.healthy "\x7b\"dns\": [\"b1:9092\", 9092]\x7d"
        = .panic "interface conversion: interface \x7b\x7d is float64, not string"
      ∧ lookupBrokers World.emptyAnswer 0 "kafka"
        = .panic "interface conversion: interface \x7b\x7d is nil, not []interface \x7b\x7d"
      ∧ (RunKafkaProducer World.emptyAnswer Flags.defaults [] 1).phase
        = .panicked "interface conversion: interface \x7b\x7d is nil, not []interface \x7b\x7d"
      ∧ (RunKafkaProducer World.emptyAnswer Flags.defaults [] 1).stats = [] := by
  refine ⟨?_, ?_, ?_, ?_, ?_, ?_, ?_⟩ <;> decide

/-! ## The producer configuration -/

theorem wrapInt64_of_range (x : Int) (hlo : -2 ^ 63 ≤ x) (hhi : x < 2 ^ 63) :
    wrapInt64 x = x := by
  unfold wrapInt64
  rw [Int.emod_eq_of_lt (by omega) (by omega)]
  omega

/-- The wrap-around lands in the range of `int64`. -/
theorem wrapInt64_range (x : Int) : -2 ^ 63 ≤ wrapInt64 x ∧ wrapInt64 x < 2 ^ 63 := by
  unfold wrapInt64
  have h1 : 0 ≤ (x + 2 ^ 63) % 2 ^ 64 := Int.emod_nonneg _ (by norm_num)
  have h2 : (x + 2 ^ 63) % 2 ^ 64 < 2 ^ 64 := Int.emod_lt_of_pos _ (by norm_num)
  constructor <;> omega

/-- The wrap-around changes its argument by a multiple of `2^64`. -/
theorem wrapInt64_modEq (x : Int) : wrapInt64 x ≡ x [ZMOD 2 ^ 64] := by
  unfold wrapInt64
  have h : (x + 2 ^ 63) % 2 ^ 64 ≡ x + 2 ^ 63 [ZMOD 2 ^ 64] := Int.mod_modEq _ _
  have h2 := Int.ModEq.sub_right (2 ^ 63) h
  simpa using h2

/-- C9, as stated, fails: with the flush period 9223372036855 ms the product
with `time.Millisecond` does not fit an `int64`; the flush frequency the code
sets is the negative duration -9223372036854551616 ns, not 9223372036855 ms. -/
theorem C9_counterexample_flush_overflow :
    (newAsyncProducer.config
        { Flags.defaults with flushPeriodFlag := 9223372036855 }).FlushFrequency
        = -9223372036854551616
      ∧ (newAsyncProducer.config
        { Flags.defaults with flushPeriodFlag := 9223372036855 }).FlushFrequency
        ≠ 9223372036855 * 1000000 := by
  constructor <;> decide

/-- C9, amended: in the configuration `newAsyncProducer` builds, the required
acks are `WaitForAll` exactly when the require-all-acks flag is set and
`WaitForLocal` otherwise, the compression is Snappy exactly when the compression
flag is set and none otherwise, and the flush frequency is the flush period
times 1000000 nanoseconds as long as the period is at most 9223372036854 ms in
absolute value; in every case it is the `int64` that differs from that product
by a multiple of `2^64`. A producer that is created carries this
configuration. -/
theorem C9_newAsyncProducer_config (f : Flags) :
    ((newAsyncProducer.config f).RequiredAcks = .WaitForAll ↔ f.requireAllAcksFlag = true)
      ∧ ((newAsyncProducer.config f).RequiredAcks = .WaitForLocal ↔ f.requireAllAcksFlag = false)
      ∧ ((newAsyncProducer.config f).Compression = .CompressionSnappy
          ↔ f.snappyCompressionFlag = true)
      ∧ ((newAsyncProducer.config f).Compression = .CompressionNone
          ↔ f.snappyCompressionFlag = false)
      ∧ (-9223372036854 ≤ f.flushPeriodFlag → f.flushPeriodFlag ≤ 9223372036854 →
          (newAsyncProducer.config f).FlushFrequency = f.flushPeriodFlag * 1000000)
      ∧ (-2 ^ 63 ≤ (newAsyncProducer.config f).FlushFrequency
          ∧ (newAsyncProducer.config f).FlushFrequency < 2 ^ 63
          ∧ (newAsyncProducer.config f).FlushFrequency % 2 ^ 64
              = (f.flushPeriodFlag * 1000000) % 2 ^ 64)
      ∧ (∀ (w : World) (attempt : Nat) (brokerList : List String) (producer : sarama.AsyncProducer),
          newAsyncProducer w f attempt brokerList = .ok producer →
            producer.config = newAsyncProducer.config f) := by
  have hff : (newAsyncProducer.config f).FlushFrequency
      = time.mul (time.Duration f.flushPeriodFlag) time.Millisecond := by
    unfold newAsyncProducer.config
    cases f.requireAllAcksFlag <;> cases f.snappyCompressionFlag <;> simp
  refine ⟨?_, ?_, ?_, ?_, ?_, ?_, ?_⟩
  · unfold newAsyncProducer.config
    cases f.requireAllAcksFlag <;> cases f.snappyCompressionFlag <;> simp
  · unfold newAsyncProducer.config
    cases f.requireAllAcksFlag <;> cases f.snappyCompressionFlag <;> simp
  · unfold newAsyncProducer.config
    cases f.requireAllAcksFlag <;> cases f.snappyCompressionFlag <;> simp
  · unfold newAsyncProducer.config
    cases f.requireAllAcksFlag <;> cases f.snappyCompressionFlag <;> simp
  · intro hlo hhi
    have hd : time.Duration f.flushPeriodFlag = f.flushPeriodFlag :=
      wrapInt64_of_range _ (by omega) (by omega)
    have hm : time.mul f.flushPeriodFlag time.Millisecond = f.flushPeriodFlag * 1000000 := by
      unfold time.mul time.Millisecond
      exact wrapInt64_of_range _ (by omega) (by omega)
    rw [hff, hd, hm]
  · rw [hff]
    unfold time.mul time.Duration time.Millisecond
    refine ⟨(wrapInt64_range _).1, (wrapInt64_range _).2, ?_⟩
    have h1 : wrapInt64 (wrapInt64 f.flushPeriodFlag * 1000000)
        ≡ wrapInt64 f.flushPeriodFlag * 1000000 [ZMOD 2 ^ 64] := wrapInt64_modEq _
    have h2 : wrapInt64 f.flushPeriodFlag * 1000000
        ≡ f.flushPeriodFlag * 1000000 [ZMOD 2 ^ 64] :=
      Int.ModEq.mul_right _ (wrapInt64_modEq _)
    exact h1.trans h2
  · intro w attempt brokerList producer h
    unfold newAsyncProducer at h
    cases hn : w.NewAsyncProducer attempt brokerList (newAsyncProducer.config f) with
    | some err => simp [hn] at h
    | none =>
      simp [hn] at h
      rw [← h]

/-- C9, amended, at the default flags: the flush frequency is five seconds. -/
theorem C9_newAsyncProducer_config_witness :
    (newAsyncProducer.config Flags.defaults).FlushFrequency = 5000 * 1000000 :=
  (C9_newAsyncProducer_config Flags.defaults).2.2.2.2.1 (by decide) (by decide)

/-! ## The port option -/

/-- The option `MetricsPort` succeeds exactly on the ports up to 65535. -/
theorem plugin.MetricsPort_spec (port : Int) (p : plugin.Plugin) :
    (port ≤ 65535 →
        plugin.MetricsPort port p = (none, { p with MetricsPort := plugin.Itoa port }))
      ∧ (65535 < port → plugin.MetricsPort port p = (some plugin.errBadPort, p)) := by
  unfold plugin.MetricsPort
  constructor
  · intro h
    simp [h]
  · intro h
    have : ¬ port ≤ 65535 := by omega
    simp [this]

/-- C10, the code at the failing input: `MetricsPort(65535)` returns no error
and sets the port of the plugin to `65535`, although `errBadPort` reads
`Port must be less than 65535`; on 65534 it succeeds and on 65536 it fails. -/
theorem C10_MetricsPort_accepts_65535 (p : plugin.Plugin) :
    plugin.MetricsPort 65535 p = (none, { p with MetricsPort := "65535" })
      ∧ plugin.errBadPort = "Port must be less than 65535"
      ∧ plugin.MetricsPort 65534 p = (none, { p with MetricsPort := "65534" })
      ∧ plugin.MetricsPort 65536 p = (some plugin.errBadPort, p) := by
  refine ⟨?_, rfl, ?_, ?_⟩
  · rw [(plugin.MetricsPort_spec 65535 p).1 (by decide)]
    rfl
  · rw [(plugin.MetricsPort_spec 65534 p).1 (by decide)]
    rfl
  · exact (plugin.MetricsPort_spec 65536 p).2 (by decide)

/-! ## The loop -/

theorem run_succ_last (w : World) (f : Flags) (n : Nat) (s : State) :
    run w f (n + 1) s = step w f (run w f n s) := by
  induction n generalizing s with
  | zero => rfl
  | succ n ih =>
    show run w f (n + 1) (step w f s) = step w f (run w f n (step w f s))
    exact ih (step w f s)

theorem run_add (w : World) (f : Flags) (m n : Nat) (s : State) :
    run w f (m + n) s = run w f n (run w f m s) := by
  induction m generalizing s with
  | zero => simp [run]
  | succ m ih =>
    have : m + 1 + n = (m + n) + 1 := by omega
    rw [this]
    show run w f (m + n) (step w f s) = run w f n (run w f m (step w f s))
    exact ih (step w f s)

theorem run_of_step_fixed (w : World) (f : Flags) (s : State) (h : step w f s = s) (n : Nat) :
    run w f n s = s := by
  induction n with
  | zero => rfl
  | succ n ih =>
    show run w f n (step w f s) = s
    rw [h, ih]

theorem step_blocked (w : World) (f : Flags) (s : State) (producer : sarama.AsyncProducer)
    (h : s.phase = .sending producer) (hq : s.messages = []) : step w f s = s := by
  unfold step
  simp only [h, hq]

/-- The events `kafkaProducer` sends are those of the choice of the brokers. -/
theorem kafkaProducer_stats (w : World) (f : Flags) (attempt : Nat) :
    (kafkaProducer w f attempt).stats = (kafkaProducer.brokers w f attempt).stats := by
  unfold kafkaProducer
  simp only []
  split
  · split <;> rfl
  · rfl
  · rfl
  · rfl

/-- When `kafkaProducer` returns a producer it has sent nothing on `stats`. -/
theorem kafkaProducer_ok_stats (w : World) (f : Flags) (attempt : Nat)
    (producer : sarama.AsyncProducer)
    (h : (kafkaProducer w f attempt).outcome = .ok producer) :
    (kafkaProducer w f attempt).stats = [] := by
  rw [kafkaProducer_stats]
  unfold kafkaProducer at h
  cases hsel : (kafkaProducer.brokers w f attempt).outcome with
  | ok brokers => exact kafkaProducer.brokers_ok_stats w f attempt brokers hsel
  | error err => simp [hsel] at h
  | panic msg => simp [hsel] at h
  | fatal msg => simp [hsel] at h

/-- The result of `kafkaProducer` when the brokers are chosen and the creation of
the producer fails. -/
theorem kafkaProducer_creation_fails (w : World) (f : Flags) (attempt : Nat)
    (bs : List String)
    (hsel : (kafkaProducer.brokers w f attempt).outcome = .ok bs)
    (hfail : w.NewAsyncProducer attempt bs (newAsyncProducer.config f) ≠ none) :
    (∃ err, (kafkaProducer w f attempt).outcome = .error err)
      ∧ (kafkaProducer w f attempt).stats = [] := by
  refine ⟨?_, ?_⟩
  · unfold kafkaProducer
    simp only [hsel]
    unfold newAsyncProducer
    cases hn : w.NewAsyncProducer attempt bs (newAsyncProducer.config f) with
    | none => exact absurd hn hfail
    | some err => simp only [hn]; exact ⟨_, rfl⟩
  · rw [kafkaProducer_stats]
    exact kafkaProducer.brokers_ok_stats w f attempt bs hsel

/-- The result of `kafkaProducer` when the brokers are chosen and the producer is
created. -/
theorem kafkaProducer_creation_succeeds (w : World) (f : Flags) (attempt : Nat)
    (bs : List String)
    (hsel : (kafkaProducer.brokers w f attempt).outcome = .ok bs)
    (hok : w.NewAsyncProducer attempt bs (newAsyncProducer.config f) = none) :
    (kafkaProducer w f attempt).outcome
        = .ok { id := attempt, brokers := bs, config := newAsyncProducer.config f }
      ∧ (kafkaProducer w f attempt).stats = [] := by
  refine ⟨?_, ?_⟩
  · unfold kafkaProducer
    simp only [hsel]
    unfold newAsyncProducer
    simp only [hok]
  · rw [kafkaProducer_stats]
    exact kafkaProducer.brokers_ok_stats w f attempt bs hsel

theorem step_connecting_error (w : World) (f : Flags) (s : State) (err : String)
    (h : s.phase = .connecting) (hr : (kafkaProducer w f s.attempt).outcome = .error err) :
    step w f s =
      { s with attempt := s.attempt + 1,
               stats := s.stats ++ (kafkaProducer w f s.attempt).stats
                          ++ [⟨.KafkaConnectionFailed, ""⟩],
               lookups := s.lookups ++ (kafkaProducer w f s.attempt).lookups } := by
  unfold step
  simp only [h, hr]

theorem step_connecting_ok (w : World) (f : Flags) (s : State) (producer : sarama.AsyncProducer)
    (h : s.phase = .connecting) (hr : (kafkaProducer w f s.attempt).outcome = .ok producer) :
    step w f s =
      { s with attempt := s.attempt + 1,
               stats := s.stats ++ (kafkaProducer w f s.attempt).stats
                          ++ [⟨.KafkaSessionOpened, ""⟩],
               lookups := s.lookups ++ (kafkaProducer w f s.attempt).lookups,
               deferred := producer :: s.deferred,
               phase := .sending producer } := by
  unfold step
  simp only [h, hr]

theorem step_sending_open (w : World) (f : Flags) (s : State) (producer : sarama.AsyncProducer)
    (message : KafkaMessage) (rest : List KafkaMessage)
    (h : s.phase = .sending producer) (hq : s.messages = message :: rest)
    (hopen : w.inputClosed producer s.submitted.length = false) :
    step w f s =
      { s with messages := rest,
               submitted := s.submitted ++ [⟨message.Topic, message.Data⟩],
               stats := s.stats ++ [⟨.KafkaMessageSent, message.Topic⟩] } := by
  unfold step
  simp [h, hq, hopen]

theorem step_sending_closed (w : World) (f : Flags) (s : State) (producer : sarama.AsyncProducer)
    (message : KafkaMessage) (rest : List KafkaMessage)
    (h : s.phase = .sending producer) (hq : s.messages = message :: rest)
    (hclosed : w.inputClosed producer s.submitted.length = true) :
    step w f s =
      runDeferred { s with messages := rest, phase := .panicked "send on closed channel" } := by
  unfold step
  simp [h, hq, hclosed]

/-- While the creation of the producer fails, the loop stays at its top, sends
one `KafkaConnectionFailed` a turn and touches neither channel of messages. -/
theorem run_while_creation_fails (w : World) (f : Flags) (queue : List KafkaMessage) (n : Nat)
    (bs : Nat → List String)
    (hsel : ∀ i, i < n → (kafkaProducer.brokers w f i).outcome = .ok (bs i))
    (hfail : ∀ i, i < n → w.NewAsyncProducer i (bs i) (newAsyncProducer.config f) ≠ none) :
    ∀ k, k ≤ n →
      (RunKafkaProducer w f queue k).phase = .connecting
        ∧ (RunKafkaProducer w f queue k).attempt = k
        ∧ (RunKafkaProducer w f queue k).messages = queue
        ∧ (RunKafkaProducer w f queue k).stats
            = List.replicate k ⟨.KafkaConnectionFailed, ""⟩
        ∧ (RunKafkaProducer w f queue k).submitted = []
        ∧ (RunKafkaProducer w f queue k).deferred = [] := by
  intro k
  induction k with
  | zero =>
    intro _
    simp [RunKafkaProducer, run, State.init]
  | succ k ih =>
    intro hk
    obtain ⟨hph, hat, hms, hst, hsub, hdef⟩ := ih (by omega)
    have hlt : k < n := by omega
    obtain ⟨⟨err, herr⟩, hstats⟩ :=
      kafkaProducer_creation_fails w f k (bs k) (hsel k hlt) (hfail k hlt)
    have hstep : RunKafkaProducer w f queue (k + 1)
        = step w f (RunKafkaProducer w f queue k) := run_succ_last w f k (State.init queue)
    rw [hstep, step_connecting_error w f _ err hph (by rw [hat]; exact herr)]
    simp only [hat, hstats, hms, hst, hsub, hdef, List.append_nil]
    refine ⟨hph, trivial, trivial, ?_, trivial, trivial⟩
    exact (List.replicate_succ' k _).symm

/-- C5: if on the attempts `0 .. n` the brokers are chosen, the creation of the
producer fails on the attempts before `n` and succeeds on attempt `n`, then
after `n + 1` turns the events sent are `n` times `KafkaConnectionFailed` and
then one `KafkaSessionOpened`, the loop is in its inner loop with the producer of
attempt `n`; up to there the inbound channel holds what it held at the start and
nothing was submitted, and after `k ≤ n` turns the events are `k` times
`KafkaConnectionFailed`. -/
theorem C5_failures_then_session_opened (w : World) (f : Flags) (queue : List KafkaMessage)
    (n : Nat) (bs : Nat → List String)
    (hsel : ∀ i, i ≤ n → (kafkaProducer.brokers w f i).outcome = .ok (bs i))
    (hfail : ∀ i, i < n → w.NewAsyncProducer i (bs i) (newAsyncProducer.config f) ≠ none)
    (hok : w.NewAsyncProducer n (bs n) (newAsyncProducer.config f) = none) :
    (RunKafkaProducer w f queue (n + 1)).stats
        = List.replicate n ⟨.KafkaConnectionFailed, ""⟩ ++ [⟨.KafkaSessionOpened, ""⟩]
      ∧ (RunKafkaProducer w f queue (n + 1)).phase
        = .sending { id := n, brokers := bs n, config := newAsyncProducer.config f }
      ∧ (∀ k, k ≤ n →
          (RunKafkaProducer w f queue k).stats = List.replicate k ⟨.KafkaConnectionFailed, ""⟩
          ∧ (RunKafkaProducer w f queue k).phase = .connecting)
      ∧ (∀ k, k ≤ n + 1 →
          (RunKafkaProducer w f queue k).messages = queue
          ∧ (RunKafkaProducer w f queue k).submitted = []) := by
  have hpre := run_while_creation_fails w f queue n bs (fun i hi => hsel i (by omega)) hfail
  obtain ⟨hph, hat, hms, hst, hsub, hdef⟩ := hpre n (le_refl n)
  obtain ⟨hout, hstats⟩ := kafkaProducer_creation_succeeds w f n (bs n) (hsel n (le_refl n)) hok
  have hstep : RunKafkaProducer w f queue (n + 1)
      = step w f (RunKafkaProducer w f queue n) := run_succ_last w f n (State.init queue)
  have hlast := step_connecting_ok w f (RunKafkaProducer w f queue n) _ hph
    (by rw [hat]; exact hout)
  rw [← hstep] at hlast
  refine ⟨?_, ?_, ?_, ?_⟩
  · rw [hlast]
    simp only [hat, hstats, hst, List.append_nil]
  · rw [hlast]
  · intro k hk
    exact ⟨(hpre k hk).2.2.2.1, (hpre k hk).1⟩
  · intro k hk
    by_cases hkn : k ≤ n
    · exact ⟨(hpre k hkn).2.2.1, (hpre k hkn).2.2.2.2.1⟩
    · have : k = n + 1 := by omega
      subst this
      rw [hlast]
      exact ⟨hms, hsub⟩

/-- C5 with two failures: two `KafkaConnectionFailed`, then `KafkaSessionOpened`,
with the three queued messages still on the inbound channel. -/
theorem C5_failures_then_session_opened_witness :
    (RunKafkaProducer (World.failing 2) Flags.defaults
        [⟨"t1", [1]⟩, ⟨"t1", [2]⟩, ⟨"t2", [3]⟩] 3).stats
      = [⟨.KafkaConnectionFailed, ""⟩, ⟨.KafkaConnectionFailed, ""⟩, ⟨.KafkaSessionOpened, ""⟩]
    ∧ (RunKafkaProducer (World.failing 2) Flags.defaults
        [⟨"t1", [1]⟩, ⟨"t1", [2]⟩, ⟨"t2", [3]⟩] 3).messages
      = [⟨"t1", [1]⟩, ⟨"t1", [2]⟩, ⟨"t2", [3]⟩] := by
  have h := C5_failures_then_session_opened (World.failing 2) Flags.defaults
    [⟨"t1", [1]⟩, ⟨"t1", [2]⟩, ⟨"t2", [3]⟩] 2 (fun _ => ["b1:9092", "b2:9092"])
    (fun i _ => by rfl)
    (fun i hi => by simp [World.failing, hi])
    (by decide)
  exact ⟨h.1, (h.2.2.2 3 (le_refl 3)).1⟩

/-- In the inner loop with an input that stays open, as many turns as there are
queued messages submit them all in order, with one `KafkaMessageSent` each. -/
theorem run_sending_healthy (w : World) (f : Flags) (producer : sarama.AsyncProducer)
    (hhealthy : ∀ k, w.inputClosed producer k = false) (msgs : List KafkaMessage) :
    ∀ s : State, s.phase = .sending producer → s.messages = msgs →
      run w f msgs.length s =
        { s with messages := [],
                 submitted := s.submitted ++ msgs.map (fun m => ⟨m.Topic, m.Data⟩),
                 stats := s.stats ++ msgs.map (fun m => ⟨.KafkaMessageSent, m.Topic⟩) } := by
  induction msgs with
  | nil =>
    intro s _ hq
    cases s
    simp only [] at hq
    simp [run, hq]
  | cons m rest ih =>
    intro s hph hq
    show run w f rest.length (step w f s) = _
    rw [step_sending_open w f s producer m rest hph hq (hhealthy _)]
    rw [ih { s with messages := rest,
                    submitted := s.submitted ++ [⟨m.Topic, m.Data⟩],
                    stats := s.stats ++ [⟨.KafkaMessageSent, m.Topic⟩] } hph rfl]
    simp

/-- C6: when the first attempt opens a session whose input stays open, then
after one turn more than there are queued messages, and from then on, the
messages submitted are the queued ones (same topic, same payload) in their
order, the events are `KafkaSessionOpened` followed by one `KafkaMessageSent`
with the topic of each message in the same order, none of them is
`KafkaConnectionFailed`, the inbound channel is empty and the loop is still in
its inner loop. -/
theorem C6_queue_submitted_in_order (w : World) (f : Flags) (queue : List KafkaMessage)
    (producer : sarama.AsyncProducer)
    (hopen : (kafkaProducer w f 0).outcome = .ok producer)
    (hhealthy : ∀ k, w.inputClosed producer k = false)
    (n : Nat) (hn : queue.length + 1 ≤ n) :
    (RunKafkaProducer w f queue n).submitted = queue.map (fun m => ⟨m.Topic, m.Data⟩)
      ∧ (RunKafkaProducer w f queue n).stats
          = ⟨.KafkaSessionOpened, ""⟩ :: queue.map (fun m => ⟨.KafkaMessageSent, m.Topic⟩)
      ∧ (∀ e ∈ (RunKafkaProducer w f queue n).stats, e.kind ≠ .KafkaConnectionFailed)
      ∧ (RunKafkaProducer w f queue n).messages = []
      ∧ (RunKafkaProducer w f queue n).phase = .sending producer := by
  have hsplit : n = 1 + (queue.length + (n - (queue.length + 1))) := by omega
  have h1 : run w f 1 (State.init queue)
      = { State.init queue with
            attempt := 1,
            stats := [⟨.KafkaSessionOpened, ""⟩],
            lookups := (kafkaProducer w f 0).lookups,
            deferred := [producer],
            phase := .sending producer } := by
    show step w f (State.init queue) = _
    rw [step_connecting_ok w f (State.init queue) producer rfl hopen]
    have hst : (kafkaProducer w f (State.init queue).attempt).stats = [] :=
      kafkaProducer_ok_stats w f 0 producer hopen
    rw [hst]
    simp [State.init]
  have h2 := run_sending_healthy w f producer hhealthy queue (run w f 1 (State.init queue))
    (by rw [h1]) (by rw [h1]; rfl)
  have h3 : run w f (queue.length + (n - (queue.length + 1))) (run w f 1 (State.init queue))
      = run w f queue.length (run w f 1 (State.init queue)) := by
    rw [run_add]
    apply run_of_step_fixed
    apply step_blocked w f _ producer
    · rw [h2, h1]
    · rw [h2]
  have hfinal : RunKafkaProducer w f queue n
      = run w f queue.length (run w f 1 (State.init queue)) := by
    unfold RunKafkaProducer
    rw [hsplit, run_add, h3]
  rw [hfinal, h2, h1]
  refine ⟨by simp [State.init], by simp, ?_, rfl, rfl⟩
  intro e he
  simp only [List.singleton_append, List.mem_cons, List.mem_map] at he
  rcases he with h | ⟨m, _, h⟩
  · rw [h]
    decide
  · rw [← h]
    simp

/-- C6 on the queue with the topics `t1`, `t1`, `t2`. -/
theorem C6_queue_submitted_in_order_witness :
    (RunKafkaProducer World.healthy Flags.defaults
        [⟨"t1", [1]⟩, ⟨"t1", [2]⟩, ⟨"t2", [3]⟩] 4).stats
      = [⟨.KafkaSessionOpened, ""⟩, ⟨.KafkaMessageSent, "t1"⟩, ⟨.KafkaMessageSent, "t1"⟩,
         ⟨.KafkaMessageSent, "t2"⟩]
    ∧ (RunKafkaProducer World.healthy Flags.defaults
        [⟨"t1", [1]⟩, ⟨"t1", [2]⟩, ⟨"t2", [3]⟩] 4).submitted
      = [⟨"t1", [1]⟩, ⟨"t1", [2]⟩, ⟨"t2", [3]⟩] := by
  have h := C6_queue_submitted_in_order World.healthy Flags.defaults
    [⟨"t1", [1]⟩, ⟨"t1", [2]⟩, ⟨"t2", [3]⟩]
    { id := 0, brokers := ["b1:9092", "b2:9092"],
      config := newAsyncProducer.config Flags.defaults }
    (by rfl) (fun _ => rfl) 4 (by decide)
  exact ⟨h.2.1, h.1⟩

/-! ## The life of the loop -/

end DcosMetrics
